import Mathlib

/-!
Verification of the RSP monthly trigger state machine.

Shallow embedding of the repository sources:
  - rsp_dca_monitor.py      (class RSPMonitor: live daily monitor)
  - rsp_backtest_monitor.py (class RSPBacktestMonitor: historical replay)
  - market_breadth_fetcher.py (class MarketBreadthFetcher)

Modelling conventions:
  - Python floats are modelled as rationals (ℚ).  A NaN daily return (pandas
    pct_change on the first bar) is modelled as Option ℚ with none for NaN,
    since the code tests pd.isna before use and substitutes 0.
  - Python dates are modelled by a Date structure (proleptic Gregorian
    calendar); weekday matches datetime.date.weekday (Monday = 0, Friday = 4).
  - random.uniform draws are modelled as explicit parameters constrained to
    the interval the call can return; random.seed makes a draw a pure
    function of the seed, modelled as a function argument from seeds.
  - The notification texts are identified by which branch fired
    (TriggerType); message formatting is presentation only.
  - In the backtest, cumulative decline divides by month_start_price without
    a zero guard; ℚ division by zero yields 0 where Python floats would give
    an infinity.  No claim below concerns a zero month-start price in the
    backtest (real bars have positive opens).
-/

/-! ## Calendar model -/

/-- A calendar date, proleptic Gregorian, as used by datetime.date. -/
structure Date where
  year : ℕ
  month : ℕ
  day : ℕ
deriving DecidableEq, Repr

/-- Gregorian leap-year rule (calendar.isleap semantics). -/
def isLeapYear (y : ℕ) : Bool := (y % 4 == 0 && y % 100 != 0) || y % 400 == 0

/-- Number of days in a month of a given year. -/
def daysInMonth (y m : ℕ) : ℕ :=
  if m = 2 then (if isLeapYear y then 29 else 28)
  else if m = 4 ∨ m = 6 ∨ m = 9 ∨ m = 11 then 30
  else 31

/-- Days in the months of year y strictly before month m. -/
def daysBeforeMonth (y m : ℕ) : ℕ :=
  ((List.range' 1 (m - 1)).map (daysInMonth y)).sum

/-- Rata die day number of a date (0001-01-01 has number 1), as in the
proleptic Gregorian calendar used by datetime. -/
def rataDie (d : Date) : ℕ :=
  365 * (d.year - 1) + (d.year - 1) / 4 - (d.year - 1) / 100 + (d.year - 1) / 400
    + daysBeforeMonth d.year d.month + d.day

/-- Day of week with Monday = 0 .. Sunday = 6, matching
datetime.date.weekday (0001-01-01 was a Monday). -/
def weekday (d : Date) : ℕ := (rataDie d - 1) % 7

/-- The ascending list of Fridays of the month (y, m): the dates d with
1 ≤ day ≤ daysInMonth enumerated in order and filtered on weekday = 4.
This is the friday list built by the while loop of
RSPMonitor.is_third_friday (rsp_dca_monitor.py lines 156-163) and of
RSPBacktestMonitor.is_third_friday (rsp_backtest_monitor.py lines 123-129);
both loops are identical. -/
def fridaysOfMonth (y m : ℕ) : List Date :=
  ((List.range' 1 (daysInMonth y m)).map (fun dd => Date.mk y m dd)).filter
    (fun x => decide (weekday x = 4))

namespace RSPMonitor

/-- RSPMonitor.is_third_friday (rsp_dca_monitor.py lines 151-174): true when
the date is the third Friday of its month; when the month has fewer than
three Fridays, true when it is the last Friday; false when the month has no
Friday at all.  The try/except wrapper only guards invalid calendar input,
unreachable for Date values. -/
def is_third_friday (d : Date) : Bool :=
  let fridays := fridaysOfMonth d.year d.month
  if 3 ≤ fridays.length then decide (fridays.get? 2 = some d)
  else
    match fridays.getLast? with
    | some f => decide (f = d)
    | none => false

end RSPMonitor

namespace RSPBacktestMonitor

/-- RSPBacktestMonitor.is_third_friday (rsp_backtest_monitor.py lines
119-138); the body is identical, line by line, to the live monitor version. -/
def is_third_friday (d : Date) : Bool :=
  let fridays := fridaysOfMonth d.year d.month
  if 3 ≤ fridays.length then decide (fridays.get? 2 = some d)
  else
    match fridays.getLast? with
    | some f => decide (f = d)
    | none => false

end RSPBacktestMonitor

/-- Modelled from the spec (section 4.1): isThirdDesignatedWeekday(date,
weekday) enumerates every date in the month of the given date falling on the
given weekday, in ascending order, and returns true iff the date equals the
third such date, or equals the last such date when the month has fewer than
three occurrences of that weekday. -/
def isThirdDesignatedWeekday (d : Date) (w : ℕ) : Bool :=
  let occs := ((List.range' 1 (daysInMonth d.year d.month)).map
      (fun dd => Date.mk d.year d.month dd)).filter (fun x => decide (weekday x = w))
  decide (occs.get? 2 = some d) ||
    (decide (occs.length < 3) && decide (occs.getLast? = some d))

/-! ## Trigger events -/

/-- The four alert kinds; a fired branch appends one such event (the Python
code appends a formatted message in the live monitor and a trigger record in
the backtest; both carry the branch identity modelled here). -/
inductive TriggerType
  | firstDip
  | monthlyDeadline
  | secondDip
  | thirdDip
deriving DecidableEq, Repr

/-- One trading day bar as used by check_triggers and analyze_month: close,
open and the pandas pct_change daily return (none models NaN on the first
bar of a fetched series). -/
structure Bar where
  date : Date
  openPrice : ℚ
  close : ℚ
  dailyReturn : Option ℚ
deriving DecidableEq, Repr

/-! ## Live monitor state machine (rsp_dca_monitor.py) -/

/-- The persisted monitor state dict (default_state, lines 50-60), without
the reporting-only monthly_returns list.  current_month is the string
YYYY-MM, modelled as the (year, month) pair, none for the empty string of a
fresh state.  month_start_price and month_low_price are None-able floats. -/
structure MonitorState where
  currentMonth : Option (ℕ × ℕ)
  firstDipTriggered : Bool
  monthlyDeadlineTriggered : Bool
  secondDipTriggered : Bool
  thirdDipTriggered : Bool
  monthStartPrice : Option ℚ
  monthLowPrice : Option ℚ
  lastCheckDate : Option Date
deriving DecidableEq, Repr

/-- RSPMonitor.reset_monthly_state (lines 176-187): set current_month and
clear the four flags and the two monthly prices; last_check_date is kept. -/
def resetMonthlyState (s : MonitorState) (cm : ℕ × ℕ) : MonitorState :=
  { s with
    currentMonth := some cm
    firstDipTriggered := false
    monthlyDeadlineTriggered := false
    secondDipTriggered := false
    thirdDipTriggered := false
    monthStartPrice := none
    monthLowPrice := none }

/-- Running month low update (lines 250-253): today close when unset,
otherwise the minimum with today close. -/
def newMonthLow (low : Option ℚ) (close : ℚ) : ℚ :=
  match low with
  | none => close
  | some l => min l close

/-- Cumulative decline (lines 255-259): (start - close) / start when
month_start_price is truthy (set and nonzero), else 0.  Python truthiness of
a float is falsity of None and of 0.0. -/
def cumulative_decline (msp : Option ℚ) (close : ℚ) : ℚ :=
  match msp with
  | none => 0
  | some p => if p = 0 then 0 else (p - close) / p

/-- Condition 1 / condition 2 block (lines 269-303): the first-dip branch
fires when neither stage-1 flag is set and the daily return is at most -1
percent; the elif deadline branch fires when neither flag is set and the day
is the third Friday. -/
def stage1 (s : MonitorState) (todayReturn : ℚ) (d : Date) :
    MonitorState × List TriggerType :=
  if ¬s.firstDipTriggered ∧ ¬s.monthlyDeadlineTriggered ∧ todayReturn ≤ -(1/100) then
    ({ s with firstDipTriggered := true }, [TriggerType.firstDip])
  else if ¬s.firstDipTriggered ∧ ¬s.monthlyDeadlineTriggered ∧
      RSPMonitor.is_third_friday d then
    ({ s with monthlyDeadlineTriggered := true }, [TriggerType.monthlyDeadline])
  else (s, [])

/-- Condition 3 block (lines 305-321): fires when the second-dip flag is not
set and the cumulative decline is at least 5 percent. -/
def stage2 (s : MonitorState) (cum : ℚ) : MonitorState × List TriggerType :=
  if ¬s.secondDipTriggered ∧ (5/100 : ℚ) ≤ cum then
    ({ s with secondDipTriggered := true }, [TriggerType.secondDip])
  else (s, [])

/-- Condition 4 block (lines 323-342): considered only when the second-dip
flag is set and the third-dip flag is not; the breadth lookup happens inside
this guard and the branch fires when the looked-up breadth is below 15. -/
def stage3 (s : MonitorState) (breadth : ℚ) : MonitorState × List TriggerType :=
  if s.secondDipTriggered ∧ ¬s.thirdDipTriggered then
    if breadth < 15 then
      ({ s with thirdDipTriggered := true }, [TriggerType.thirdDip])
    else (s, [])
  else (s, [])

/-- One day of RSPMonitor.check_triggers after the today bar is located
(lines 246-342): substitute 0 for a NaN daily return, update the month low,
compute the cumulative decline from the stored month start price, then run
the four condition blocks in order.  breadth is the value
get_market_breadth would return on this call (looked up only inside the
stage-3 guard; passing it as a parameter is faithful because the lookup has
no effect on the monitor state). -/
def checkTriggersCore (s : MonitorState) (b : Bar) (breadth : ℚ) :
    MonitorState × List TriggerType :=
  let todayReturn := b.dailyReturn.getD 0
  let s1 := { s with monthLowPrice := some (newMonthLow s.monthLowPrice b.close) }
  let cum := cumulative_decline s.monthStartPrice b.close
  let r1 := stage1 s1 todayReturn b.date
  let r2 := stage2 r1.1 cum
  let r3 := stage3 r2.1 breadth
  (r3.1, r1.2 ++ r2.2 ++ r3.2)

/-- RSPMonitor.check_triggers (lines 220-350) for one run: df is the fetched
window (sorted by date), today the calendar date of the run, breadth the
value a stage-3 lookup would return.  Result: final in-memory state, fired
events, and whether save_state was reached (the Bool).  Mirrors the control
flow: empty window aborts at line 227; month rollover (lines 233-238) resets
the state and seeds month_start_price from the first fetched bar of the new
month; a missing today bar aborts at line 244 after the rollover; otherwise
the condition blocks run, last_check_date is set and the state is saved. -/
def checkTriggers (s : MonitorState) (df : List Bar) (today : Date)
    (breadth : ℚ) : MonitorState × List TriggerType × Bool :=
  if df.isEmpty then (s, [], false)
  else
    let cm := (today.year, today.month)
    let s1 :=
      if s.currentMonth ≠ some cm then
        let r := resetMonthlyState s cm
        match (df.filter (fun b =>
            decide (b.date.year = today.year ∧ b.date.month = today.month))).head? with
        | some b0 => { r with monthStartPrice := some b0.openPrice }
        | none => r
      else s
    match (df.filter (fun b => decide (b.date = today))).getLast? with
    | none => (s1, [], false)
    | some tb =>
      let r := checkTriggersCore s1 tb breadth
      ({ r.1 with lastCheckDate := some today }, r.2, true)

/-- A whole month of daily evaluations in live mode: fold the per-day
evaluation over the (bar, breadth) pairs of the month. -/
def runMonth (s : MonitorState) (days : List (Bar × ℚ)) : MonitorState :=
  days.foldl (fun st d => (checkTriggersCore st d.1 d.2).1) s

/-! ## Breadth providers -/

namespace RSPMonitor

/-- RSPMonitor.get_market_breadth (rsp_dca_monitor.py lines 142-149): return
the fetcher result, or the default 20.0 when the fetcher raises (the raised
case is modelled as none). -/
def get_market_breadth (fetcherResult : Option ℚ) : ℚ :=
  fetcherResult.getD 20

end RSPMonitor

namespace MarketBreadthFetcher

/-- MarketBreadthFetcher._get_simulated_breadth (market_breadth_fetcher.py
lines 135-150): 25.0 plus a random.uniform(-10, 10) variation, clamped to
[5, 45].  The variation is the seeded uniform draw, a value in [-10, 10]. -/
def _get_simulated_breadth (variation : ℚ) : ℚ :=
  max 5 (min 45 (25 + variation))

/-- MarketBreadthFetcher.get_market_breadth (lines 115-133): return the
first data source that yields a value, else the simulated breadth.  Each
source result is Option ℚ (none when the fetch or parse failed). -/
def get_market_breadth (sources : List (Option ℚ)) (variation : ℚ) : ℚ :=
  match sources.findSome? id with
  | some v => v
  | none => _get_simulated_breadth variation

end MarketBreadthFetcher

namespace FallbackMarketBreadthFetcher

/-- The simplified substitute class installed when importing the real
MarketBreadthFetcher fails (rsp_dca_monitor.py lines 18-25): its
get_market_breadth returns
random.uniform(10, 30), i.e. exactly the uniform draw u, a value in
[10, 30]. -/
def get_market_breadth (u : ℚ) : ℚ := u

end FallbackMarketBreadthFetcher

/-! ## Backtest state machine (rsp_backtest_monitor.py) -/

/-- The per-month backtest state dict (analyze_month lines 166-178), without
the reporting-only fields month_end_price, month_return and trading_days. -/
structure BMonthState where
  firstDipTriggered : Bool
  monthlyDeadlineTriggered : Bool
  secondDipTriggered : Bool
  thirdDipTriggered : Bool
  triggers : List TriggerType
  monthStartPrice : ℚ
  maxDecline : ℚ
deriving DecidableEq, Repr

/-- Backtest condition 1 / condition 2 block (lines 197-227), identical
trigger logic to the live stage 1, appending the trigger record. -/
def bstage1 (st : BMonthState) (dailyReturn : ℚ) (d : Date) :
    BMonthState × List TriggerType :=
  if ¬st.firstDipTriggered ∧ ¬st.monthlyDeadlineTriggered ∧ dailyReturn ≤ -(1/100) then
    ({ st with
        firstDipTriggered := true
        triggers := st.triggers ++ [TriggerType.firstDip] }, [TriggerType.firstDip])
  else if ¬st.firstDipTriggered ∧ ¬st.monthlyDeadlineTriggered ∧
      RSPBacktestMonitor.is_third_friday d then
    ({ st with
        monthlyDeadlineTriggered := true
        triggers := st.triggers ++ [TriggerType.monthlyDeadline] },
     [TriggerType.monthlyDeadline])
  else (st, [])

/-- Backtest condition 3 block (lines 229-242). -/
def bstage2 (st : BMonthState) (cum : ℚ) : BMonthState × List TriggerType :=
  if ¬st.secondDipTriggered ∧ (5/100 : ℚ) ≤ cum then
    ({ st with
        secondDipTriggered := true
        triggers := st.triggers ++ [TriggerType.secondDip] }, [TriggerType.secondDip])
  else (st, [])

/-- Backtest condition 4 block (lines 244-268): considered only when the
second-dip flag is set and the third-dip flag is not; breadth is the value
simulate_market_breadth returns for this day (deterministic in the date and
the trailing volatility, see simulate_market_breadth below). -/
def bstage3 (st : BMonthState) (breadth : ℚ) : BMonthState × List TriggerType :=
  if st.secondDipTriggered ∧ ¬st.thirdDipTriggered then
    if breadth < 15 then
      ({ st with
          thirdDipTriggered := true
          triggers := st.triggers ++ [TriggerType.thirdDip] }, [TriggerType.thirdDip])
    else (st, [])
  else (st, [])

/-- One day of RSPBacktestMonitor.analyze_month (lines 186-268): substitute
0 for a NaN daily return, compute the cumulative decline from the fixed
month start price (no zero guard in this file), track the max decline, then
run the condition blocks in order.  Returns the updated month state and the
trigger events fired on this day. -/
def analyzeMonthStep (st : BMonthState) (b : Bar) (breadth : ℚ) :
    BMonthState × List TriggerType :=
  let dailyReturn := b.dailyReturn.getD 0
  let cum := (st.monthStartPrice - b.close) / st.monthStartPrice
  let st0 := { st with maxDecline := max st.maxDecline cum }
  let r1 := bstage1 st0 dailyReturn b.date
  let r2 := bstage2 r1.1 cum
  let r3 := bstage3 r2.1 breadth
  (r3.1, r1.2 ++ r2.2 ++ r3.2)

/-- RSPBacktestMonitor.analyze_month (lines 159-270): none on an empty
month; otherwise initialise the month state with all flags false, no
triggers, month_start_price the open of the first bar, and fold the per-day
step over every bar of the month.  Each day carries the breadth value the
simulated lookup would produce for it. -/
def analyzeMonth (days : List (Bar × ℚ)) : Option BMonthState :=
  match days with
  | [] => none
  | (b0, _) :: _ =>
    let init : BMonthState :=
      { firstDipTriggered := false
        monthlyDeadlineTriggered := false
        secondDipTriggered := false
        thirdDipTriggered := false
        triggers := []
        monthStartPrice := b0.openPrice
        maxDecline := 0 }
    some (days.foldl (fun st d => (analyzeMonthStep st d.1 d.2).1) init)

/-- The seed of simulate_market_breadth (line 145): int(YYYYMMDD) mod 10000. -/
def dateSeed (d : Date) : ℕ := (d.year * 10000 + d.month * 100 + d.day) % 10000

/-- RSPBacktestMonitor.simulate_market_breadth (lines 140-157): seed the
generator from the date, draw variation = uniform(-15, 15) (a pure function
of the seed once seeded, modelled by variationOf), and clamp
30 - volatility * 100 + variation to [5, 50]. -/
def simulate_market_breadth (variationOf : ℕ → ℚ) (d : Date) (volatility : ℚ) : ℚ :=
  let seed := dateSeed d
  let base_breadth := 30 - volatility * 100
  let variation := variationOf seed
  max 5 (min 50 (base_breadth + variation))

/-- The except branch of simulate_market_breadth (line 157) returns 25.0. -/
def simulateBreadthErrorDefault : ℚ := 25

/-! ## Stage bookkeeping lemmas

Each condition block only writes its own flag (and the trigger list); every
other field passes through unchanged. -/

@[simp] lemma stage1_secondDip (s : MonitorState) (r : ℚ) (d : Date) :
    (stage1 s r d).1.secondDipTriggered = s.secondDipTriggered := by
  unfold stage1; split_ifs <;> rfl

@[simp] lemma stage1_thirdDip (s : MonitorState) (r : ℚ) (d : Date) :
    (stage1 s r d).1.thirdDipTriggered = s.thirdDipTriggered := by
  unfold stage1; split_ifs <;> rfl

@[simp] lemma stage1_msp (s : MonitorState) (r : ℚ) (d : Date) :
    (stage1 s r d).1.monthStartPrice = s.monthStartPrice := by
  unfold stage1; split_ifs <;> rfl

@[simp] lemma stage2_firstDip (s : MonitorState) (c : ℚ) :
    (stage2 s c).1.firstDipTriggered = s.firstDipTriggered := by
  unfold stage2; split_ifs <;> rfl

@[simp] lemma stage2_deadline (s : MonitorState) (c : ℚ) :
    (stage2 s c).1.monthlyDeadlineTriggered = s.monthlyDeadlineTriggered := by
  unfold stage2; split_ifs <;> rfl

@[simp] lemma stage2_thirdDip (s : MonitorState) (c : ℚ) :
    (stage2 s c).1.thirdDipTriggered = s.thirdDipTriggered := by
  unfold stage2; split_ifs <;> rfl

@[simp] lemma stage2_msp (s : MonitorState) (c : ℚ) :
    (stage2 s c).1.monthStartPrice = s.monthStartPrice := by
  unfold stage2; split_ifs <;> rfl

@[simp] lemma stage3_firstDip (s : MonitorState) (br : ℚ) :
    (stage3 s br).1.firstDipTriggered = s.firstDipTriggered := by
  unfold stage3; split_ifs <;> rfl

@[simp] lemma stage3_deadline (s : MonitorState) (br : ℚ) :
    (stage3 s br).1.monthlyDeadlineTriggered = s.monthlyDeadlineTriggered := by
  unfold stage3; split_ifs <;> rfl

@[simp] lemma stage3_secondDip (s : MonitorState) (br : ℚ) :
    (stage3 s br).1.secondDipTriggered = s.secondDipTriggered := by
  unfold stage3; split_ifs <;> rfl

@[simp] lemma stage3_msp (s : MonitorState) (br : ℚ) :
    (stage3 s br).1.monthStartPrice = s.monthStartPrice := by
  unfold stage3; split_ifs <;> rfl

@[simp] lemma bstage1_secondDip (st : BMonthState) (r : ℚ) (d : Date) :
    (bstage1 st r d).1.secondDipTriggered = st.secondDipTriggered := by
  unfold bstage1; split_ifs <;> rfl

@[simp] lemma bstage1_thirdDip (st : BMonthState) (r : ℚ) (d : Date) :
    (bstage1 st r d).1.thirdDipTriggered = st.thirdDipTriggered := by
  unfold bstage1; split_ifs <;> rfl

@[simp] lemma bstage1_msp (st : BMonthState) (r : ℚ) (d : Date) :
    (bstage1 st r d).1.monthStartPrice = st.monthStartPrice := by
  unfold bstage1; split_ifs <;> rfl

@[simp] lemma bstage2_firstDip (st : BMonthState) (c : ℚ) :
    (bstage2 st c).1.firstDipTriggered = st.firstDipTriggered := by
  unfold bstage2; split_ifs <;> rfl

@[simp] lemma bstage2_deadline (st : BMonthState) (c : ℚ) :
    (bstage2 st c).1.monthlyDeadlineTriggered = st.monthlyDeadlineTriggered := by
  unfold bstage2; split_ifs <;> rfl

@[simp] lemma bstage2_thirdDip (st : BMonthState) (c : ℚ) :
    (bstage2 st c).1.thirdDipTriggered = st.thirdDipTriggered := by
  unfold bstage2; split_ifs <;> rfl

@[simp] lemma bstage2_msp (st : BMonthState) (c : ℚ) :
    (bstage2 st c).1.monthStartPrice = st.monthStartPrice := by
  unfold bstage2; split_ifs <;> rfl

@[simp] lemma bstage3_firstDip (st : BMonthState) (br : ℚ) :
    (bstage3 st br).1.firstDipTriggered = st.firstDipTriggered := by
  unfold bstage3; split_ifs <;> rfl

@[simp] lemma bstage3_deadline (st : BMonthState) (br : ℚ) :
    (bstage3 st br).1.monthlyDeadlineTriggered = st.monthlyDeadlineTriggered := by
  unfold bstage3; split_ifs <;> rfl

@[simp] lemma bstage3_secondDip (st : BMonthState) (br : ℚ) :
    (bstage3 st br).1.secondDipTriggered = st.secondDipTriggered := by
  unfold bstage3; split_ifs <;> rfl

@[simp] lemma bstage3_msp (st : BMonthState) (br : ℚ) :
    (bstage3 st br).1.monthStartPrice = st.monthStartPrice := by
  unfold bstage3; split_ifs <;> rfl

/-! ## Stage-1 mutual exclusion (C1) -/

lemma stage1_mutex (s : MonitorState) (r : ℚ) (d : Date)
    (h : ¬(s.firstDipTriggered = true ∧ s.monthlyDeadlineTriggered = true)) :
    ¬((stage1 s r d).1.firstDipTriggered = true ∧
      (stage1 s r d).1.monthlyDeadlineTriggered = true) := by
  unfold stage1; split_ifs with h1 h2 <;> simp_all

lemma checkTriggersCore_mutex (s : MonitorState) (b : Bar) (br : ℚ)
    (h : ¬(s.firstDipTriggered = true ∧ s.monthlyDeadlineTriggered = true)) :
    ¬((checkTriggersCore s b br).1.firstDipTriggered = true ∧
      (checkTriggersCore s b br).1.monthlyDeadlineTriggered = true) := by
  have := stage1_mutex
      { s with monthLowPrice := some (newMonthLow s.monthLowPrice b.close) }
      (b.dailyReturn.getD 0) b.date (by simpa using h)
  simpa [checkTriggersCore] using this

lemma runMonth_nil (s : MonitorState) : runMonth s [] = s := rfl

lemma runMonth_cons (s : MonitorState) (d : Bar × ℚ) (t : List (Bar × ℚ)) :
    runMonth s (d :: t) = runMonth (checkTriggersCore s d.1 d.2).1 t := rfl

lemma runMonth_mutex (days : List (Bar × ℚ)) (s : MonitorState)
    (h : ¬(s.firstDipTriggered = true ∧ s.monthlyDeadlineTriggered = true)) :
    ¬((runMonth s days).firstDipTriggered = true ∧
      (runMonth s days).monthlyDeadlineTriggered = true) := by
  induction days generalizing s with
  | nil => exact h
  | cons d t ih => exact ih _ (checkTriggersCore_mutex _ _ _ h)

lemma bstage1_mutex (st : BMonthState) (r : ℚ) (d : Date)
    (h : ¬(st.firstDipTriggered = true ∧ st.monthlyDeadlineTriggered = true)) :
    ¬((bstage1 st r d).1.firstDipTriggered = true ∧
      (bstage1 st r d).1.monthlyDeadlineTriggered = true) := by
  unfold bstage1; split_ifs with h1 h2 <;> simp_all

lemma analyzeMonthStep_mutex (st : BMonthState) (b : Bar) (br : ℚ)
    (h : ¬(st.firstDipTriggered = true ∧ st.monthlyDeadlineTriggered = true)) :
    ¬((analyzeMonthStep st b br).1.firstDipTriggered = true ∧
      (analyzeMonthStep st b br).1.monthlyDeadlineTriggered = true) := by
  have := bstage1_mutex { st with
      maxDecline := max st.maxDecline ((st.monthStartPrice - b.close) / st.monthStartPrice) }
      (b.dailyReturn.getD 0) b.date (by simpa using h)
  simpa [analyzeMonthStep] using this

lemma bFold_mutex (t : List (Bar × ℚ)) (st : BMonthState)
    (h : ¬(st.firstDipTriggered = true ∧ st.monthlyDeadlineTriggered = true)) :
    ¬((t.foldl (fun st d => (analyzeMonthStep st d.1 d.2).1) st).firstDipTriggered = true ∧
      (t.foldl (fun st d => (analyzeMonthStep st d.1 d.2).1) st).monthlyDeadlineTriggered
        = true) := by
  induction t generalizing st with
  | nil => exact h
  | cons d t ih => exact ih _ (analyzeMonthStep_mutex _ _ _ h)

/-- C1: for every month and every sequence of daily evaluations within it,
firstDipTriggered and monthlyDeadlineTriggered are never both true: both in
the live monitor (any number of check_triggers condition evaluations after
the monthly reset) and in the backtest per-month analysis, the two stage-1
branches each fire only when neither flag is set, so at most one of the two
resolutions of stage 1 occurs per month. -/
theorem stage1_flags_mutually_exclusive :
    (∀ (s : MonitorState) (cm : ℕ × ℕ) (days : List (Bar × ℚ)),
        ¬((runMonth (resetMonthlyState s cm) days).firstDipTriggered = true ∧
          (runMonth (resetMonthlyState s cm) days).monthlyDeadlineTriggered = true)) ∧
    (∀ (days : List (Bar × ℚ)) (r : BMonthState), analyzeMonth days = some r →
        ¬(r.firstDipTriggered = true ∧ r.monthlyDeadlineTriggered = true)) := by
  constructor
  · intro s cm days
    exact runMonth_mutex days _ (by simp [resetMonthlyState])
  · intro days r h
    match days, h with
    | (b0, br0) :: t, h =>
      simp only [analyzeMonth, Option.some.injEq] at h
      subst h
      exact bFold_mutex _ _ (by simp)

/-! ## Concrete fixtures used by witnesses and counterexamples -/

/-- The default_state dict of RSPMonitor (rsp_dca_monitor.py lines 50-60):
empty current month, all flags false, no prices, no last check date. -/
def defaultState : MonitorState :=
  { currentMonth := none
    firstDipTriggered := false
    monthlyDeadlineTriggered := false
    secondDipTriggered := false
    thirdDipTriggered := false
    monthStartPrice := none
    monthLowPrice := none
    lastCheckDate := none }

/-- A flat trading day: Tuesday 2025-08-05, open and close 100, zero
daily return. -/
def quietBar : Bar :=
  { date := ⟨2025, 8, 5⟩, openPrice := 100, close := 100, dailyReturn := some 0 }

/-- A one-day month consisting of the flat day, breadth 20. -/
def quietDays : List (Bar × ℚ) := [(quietBar, 20)]

lemma quietBar_not_third_friday :
    RSPMonitor.is_third_friday ⟨2025, 8, 5⟩ = false := by decide

lemma quietBar_not_third_friday_bt :
    RSPBacktestMonitor.is_third_friday ⟨2025, 8, 5⟩ = false := by decide

/-- The backtest month state that analyze_month produces on quietDays. -/
def quietMonthResult : BMonthState :=
  { firstDipTriggered := false
    monthlyDeadlineTriggered := false
    secondDipTriggered := false
    thirdDipTriggered := false
    triggers := []
    monthStartPrice := 100
    maxDecline := 0 }

lemma analyzeMonth_quietDays : analyzeMonth quietDays = some quietMonthResult := by
  norm_num [analyzeMonth, analyzeMonthStep, bstage1, bstage2, bstage3,
    quietDays, quietBar, quietMonthResult, quietBar_not_third_friday_bt]

theorem stage1_flags_mutually_exclusive_witness :
    ¬(quietMonthResult.firstDipTriggered = true ∧
      quietMonthResult.monthlyDeadlineTriggered = true) :=
  stage1_flags_mutually_exclusive.2 quietDays quietMonthResult analyzeMonth_quietDays

/-! ## Third dip requires second dip (C2) -/

lemma stage2_second_mono (s : MonitorState) (c : ℚ)
    (h : s.secondDipTriggered = true) : (stage2 s c).1.secondDipTriggered = true := by
  unfold stage2; split_ifs <;> simp_all

lemma stage3_inv (s : MonitorState) (br : ℚ)
    (h : s.thirdDipTriggered = true → s.secondDipTriggered = true) :
    (stage3 s br).1.thirdDipTriggered = true → (stage3 s br).1.secondDipTriggered = true := by
  unfold stage3; split_ifs <;> simp_all

lemma checkTriggersCore_third_inv (s : MonitorState) (b : Bar) (br : ℚ)
    (h : s.thirdDipTriggered = true → s.secondDipTriggered = true) :
    (checkTriggersCore s b br).1.thirdDipTriggered = true →
      (checkTriggersCore s b br).1.secondDipTriggered = true := by
  simp only [checkTriggersCore]
  refine stage3_inv _ _ ?_
  simp only [stage2_thirdDip, stage1_thirdDip]
  intro h3
  exact stage2_second_mono _ _ (by simp only [stage1_secondDip]; exact h (by simpa using h3))

lemma runMonth_third_inv (days : List (Bar × ℚ)) (s : MonitorState)
    (h : s.thirdDipTriggered = true → s.secondDipTriggered = true) :
    (runMonth s days).thirdDipTriggered = true →
      (runMonth s days).secondDipTriggered = true := by
  induction days generalizing s with
  | nil => exact h
  | cons d t ih => exact ih _ (checkTriggersCore_third_inv _ _ _ h)

lemma bstage2_second_mono (st : BMonthState) (c : ℚ)
    (h : st.secondDipTriggered = true) : (bstage2 st c).1.secondDipTriggered = true := by
  unfold bstage2; split_ifs <;> simp_all

lemma bstage3_inv (st : BMonthState) (br : ℚ)
    (h : st.thirdDipTriggered = true → st.secondDipTriggered = true) :
    (bstage3 st br).1.thirdDipTriggered = true →
      (bstage3 st br).1.secondDipTriggered = true := by
  unfold bstage3; split_ifs <;> simp_all

lemma analyzeMonthStep_third_inv (st : BMonthState) (b : Bar) (br : ℚ)
    (h : st.thirdDipTriggered = true → st.secondDipTriggered = true) :
    (analyzeMonthStep st b br).1.thirdDipTriggered = true →
      (analyzeMonthStep st b br).1.secondDipTriggered = true := by
  simp only [analyzeMonthStep]
  refine bstage3_inv _ _ ?_
  simp only [bstage2_thirdDip, bstage1_thirdDip]
  intro h3
  exact bstage2_second_mono _ _ (by simp only [bstage1_secondDip]; exact h (by simpa using h3))

lemma bFold_third_inv (t : List (Bar × ℚ)) (st : BMonthState)
    (h : st.thirdDipTriggered = true → st.secondDipTriggered = true) :
    (t.foldl (fun st d => (analyzeMonthStep st d.1 d.2).1) st).thirdDipTriggered = true →
      (t.foldl (fun st d => (analyzeMonthStep st d.1 d.2).1) st).secondDipTriggered
        = true := by
  induction t generalizing st with
  | nil => exact h
  | cons d t ih => exact ih _ (analyzeMonthStep_third_inv _ _ _ h)

/-- C2: in every reachable state of a month of evaluations (live monitor
after the monthly reset, and backtest per-month analysis), thirdDipTriggered
is true only if secondDipTriggered is true: the stage-3 market-breadth
branch is considered only when secondDipTriggered is set and
thirdDipTriggered is not. -/
theorem thirdDip_requires_secondDip :
    (∀ (s : MonitorState) (cm : ℕ × ℕ) (days : List (Bar × ℚ)),
        (runMonth (resetMonthlyState s cm) days).thirdDipTriggered = true →
        (runMonth (resetMonthlyState s cm) days).secondDipTriggered = true) ∧
    (∀ (days : List (Bar × ℚ)) (r : BMonthState), analyzeMonth days = some r →
        r.thirdDipTriggered = true → r.secondDipTriggered = true) := by
  constructor
  · intro s cm days
    exact runMonth_third_inv days _ (by simp [resetMonthlyState])
  · intro days r h
    match days, h with
    | (b0, br0) :: t, h =>
      simp only [analyzeMonth, Option.some.injEq] at h
      subst h
      exact bFold_third_inv _ _ (by simp)

/-- A dip day: close 94 from a month start of 100 (6 percent cumulative
decline), flat daily return, breadth 10. -/
def dipBar : Bar :=
  { date := ⟨2025, 8, 5⟩, openPrice := 100, close := 94, dailyReturn := some 0 }

/-- A one-day month where the second and third dips both fire. -/
def dipDays : List (Bar × ℚ) := [(dipBar, 10)]

/-- The backtest month state that analyze_month produces on dipDays. -/
def dipMonthResult : BMonthState :=
  { firstDipTriggered := false
    monthlyDeadlineTriggered := false
    secondDipTriggered := true
    thirdDipTriggered := true
    triggers := [TriggerType.secondDip, TriggerType.thirdDip]
    monthStartPrice := 100
    maxDecline := 3/50 }

lemma analyzeMonth_dipDays : analyzeMonth dipDays = some dipMonthResult := by
  norm_num [analyzeMonth, analyzeMonthStep, bstage1, bstage2, bstage3,
    dipDays, dipBar, dipMonthResult, quietBar_not_third_friday_bt]

theorem thirdDip_requires_secondDip_witness :
    dipMonthResult.secondDipTriggered = true :=
  thirdDip_requires_secondDip.2 dipDays dipMonthResult analyzeMonth_dipDays rfl

/-! ## Second dip needs a month start price (C3) -/

lemma stage2_second_of_not_fire (s : MonitorState) (c : ℚ) (hc : ¬((5:ℚ)/100 ≤ c)) :
    (stage2 s c).1.secondDipTriggered = s.secondDipTriggered := by
  unfold stage2; split_ifs <;> simp_all

/-- C3: secondDipTriggered never becomes true while monthStartPrice is unset
(or zero): in check_triggers the cumulative decline of such a day is
computed as 0, which cannot satisfy the 5 percent stage-2 threshold, so the
second-dip flag stays false. -/
theorem secondDip_needs_monthStartPrice :
    ∀ (s : MonitorState) (b : Bar) (br : ℚ),
      (s.monthStartPrice = none ∨ s.monthStartPrice = some 0) →
      s.secondDipTriggered = false →
      (checkTriggersCore s b br).1.secondDipTriggered = false := by
  intro s b br h h2
  have hcum : cumulative_decline s.monthStartPrice b.close = 0 := by
    rcases h with h | h <;> simp [cumulative_decline, h]
  simp only [checkTriggersCore, stage3_secondDip]
  rw [hcum, stage2_second_of_not_fire _ _ (by norm_num)]
  simpa using h2

theorem secondDip_needs_monthStartPrice_witness :
    (checkTriggersCore defaultState quietBar 20).1.secondDipTriggered = false :=
  secondDip_needs_monthStartPrice defaultState quietBar 20 (Or.inl rfl) rfl

/-! ## Breadth provider failure paths (C4) -/

/-- C4 counterexample: the claim that every breadth failure path returns a
value that is at least 15 fails on the import-failure substitute class,
whose get_market_breadth returns the raw uniform(10, 30) draw: the draw 12
lies inside [10, 30] and the returned breadth 12 is below 15, enough to
satisfy the stage-3 condition breadth < 15 spuriously. -/
theorem breadth_fallback_below_15 :
    (10:ℚ) ≤ 12 ∧ (12:ℚ) ≤ 30 ∧
      FallbackMarketBreadthFetcher.get_market_breadth 12 < 15 := by
  norm_num [FallbackMarketBreadthFetcher.get_market_breadth]

lemma findSome_id_none (sources : List (Option ℚ)) (h : ∀ x ∈ sources, x = none) :
    sources.findSome? id = none := by
  induction sources with
  | nil => rfl
  | cons a t ih =>
    have ha := h a (by simp)
    simp only [List.findSome?_cons, ha, id]
    exact ih (fun x hx => h x (by simp [hx]))

/-- C4 amended: the live breadth lookups never fail the caller, and the two
failure paths inside RSPMonitor and MarketBreadthFetcher return values that
are at least 15 (the exception default 20, and the simulated breadth, which
lies in [15, 35] because 25 plus a variation in [-10, 10] is clamped to
[5, 45]); the import-failure substitute class however returns the raw
uniform(10, 30) draw, which always lies in [0, 100] but is not bounded
below by 15. -/
theorem breadth_failure_paths_amended :
    (RSPMonitor.get_market_breadth none = 20 ∧
      (15:ℚ) ≤ RSPMonitor.get_market_breadth none) ∧
    (∀ v : ℚ, -10 ≤ v → v ≤ 10 →
      15 ≤ MarketBreadthFetcher._get_simulated_breadth v ∧
      MarketBreadthFetcher._get_simulated_breadth v ≤ 35) ∧
    (∀ (sources : List (Option ℚ)) (v : ℚ), (∀ x ∈ sources, x = none) →
      -10 ≤ v → v ≤ 10 →
      15 ≤ MarketBreadthFetcher.get_market_breadth sources v) ∧
    (∀ u : ℚ, 10 ≤ u → u ≤ 30 →
      0 ≤ FallbackMarketBreadthFetcher.get_market_breadth u ∧
      FallbackMarketBreadthFetcher.get_market_breadth u ≤ 100) := by
  have hsim : ∀ v : ℚ, -10 ≤ v → v ≤ 10 →
      15 ≤ MarketBreadthFetcher._get_simulated_breadth v ∧
      MarketBreadthFetcher._get_simulated_breadth v ≤ 35 := by
    intro v h1 h2
    unfold MarketBreadthFetcher._get_simulated_breadth
    constructor
    · exact le_trans (le_min (by norm_num) (by linarith)) (le_max_right _ _)
    · exact max_le (by norm_num) (le_trans (min_le_right _ _) (by linarith))
  refine ⟨⟨rfl, by norm_num [RSPMonitor.get_market_breadth]⟩, hsim, ?_, ?_⟩
  · intro sources v hs h1 h2
    unfold MarketBreadthFetcher.get_market_breadth
    rw [findSome_id_none sources hs]
    exact (hsim v h1 h2).1
  · intro u h1 h2
    unfold FallbackMarketBreadthFetcher.get_market_breadth
    constructor <;> linarith

theorem breadth_failure_paths_amended_witness :
    (15:ℚ) ≤ MarketBreadthFetcher._get_simulated_breadth 0 ∧
    (15:ℚ) ≤ MarketBreadthFetcher.get_market_breadth [none, none] 0 ∧
    (0:ℚ) ≤ FallbackMarketBreadthFetcher.get_market_breadth 12 :=
  ⟨(breadth_failure_paths_amended.2.1 0 (by norm_num) (by norm_num)).1,
   breadth_failure_paths_amended.2.2.1 [none, none] 0 (by simp) (by norm_num) (by norm_num),
   (breadth_failure_paths_amended.2.2.2 12 (by norm_num) (by norm_num)).1⟩

/-! ## Idempotence of a day evaluation (C5) -/

lemma stage1_stable (s t : MonitorState) (r : ℚ) (d : Date)
    (h1 : t.firstDipTriggered = (stage1 s r d).1.firstDipTriggered)
    (h2 : t.monthlyDeadlineTriggered = (stage1 s r d).1.monthlyDeadlineTriggered) :
    stage1 t r d = (t, []) := by
  unfold stage1 at *
  split_ifs at h1 h2 ⊢ <;> simp_all

lemma stage2_stable (s t : MonitorState) (c : ℚ)
    (h : t.secondDipTriggered = (stage2 s c).1.secondDipTriggered) :
    stage2 t c = (t, []) := by
  unfold stage2 at *
  split_ifs at h ⊢ <;> simp_all

lemma stage3_stable (s t : MonitorState) (br : ℚ)
    (h1 : t.secondDipTriggered = s.secondDipTriggered)
    (h2 : t.thirdDipTriggered = (stage3 s br).1.thirdDipTriggered) :
    stage3 t br = (t, []) := by
  unfold stage3 at *
  split_ifs at h2 ⊢ <;> simp_all

lemma checkTriggersCore_stable (s t : MonitorState) (b : Bar) (br : ℚ)
    (hf : t.firstDipTriggered = (checkTriggersCore s b br).1.firstDipTriggered)
    (hd : t.monthlyDeadlineTriggered = (checkTriggersCore s b br).1.monthlyDeadlineTriggered)
    (hs2 : t.secondDipTriggered = (checkTriggersCore s b br).1.secondDipTriggered)
    (ht : t.thirdDipTriggered = (checkTriggersCore s b br).1.thirdDipTriggered)
    (hm : t.monthStartPrice = s.monthStartPrice) :
    (checkTriggersCore t b br).2 = [] := by
  have e1 : stage1 { t with monthLowPrice := some (newMonthLow t.monthLowPrice b.close) }
      (b.dailyReturn.getD 0) b.date =
      ({ t with monthLowPrice := some (newMonthLow t.monthLowPrice b.close) }, []) := by
    apply stage1_stable
      { s with monthLowPrice := some (newMonthLow s.monthLowPrice b.close) }
    · simpa [checkTriggersCore] using hf
    · simpa [checkTriggersCore] using hd
  have e2 : stage2 { t with monthLowPrice := some (newMonthLow t.monthLowPrice b.close) }
      (cumulative_decline t.monthStartPrice b.close) =
      ({ t with monthLowPrice := some (newMonthLow t.monthLowPrice b.close) }, []) := by
    rw [hm]
    apply stage2_stable
      (stage1 { s with monthLowPrice := some (newMonthLow s.monthLowPrice b.close) }
        (b.dailyReturn.getD 0) b.date).1
    simpa [checkTriggersCore] using hs2
  have e3 : stage3 { t with monthLowPrice := some (newMonthLow t.monthLowPrice b.close) }
      br =
      ({ t with monthLowPrice := some (newMonthLow t.monthLowPrice b.close) }, []) := by
    apply stage3_stable
      (stage2 (stage1 { s with monthLowPrice := some (newMonthLow s.monthLowPrice b.close) }
        (b.dailyReturn.getD 0) b.date).1 (cumulative_decline s.monthStartPrice b.close)).1
    · simpa [checkTriggersCore] using hs2
    · simpa [checkTriggersCore] using ht
  simp only [checkTriggersCore, e1, e2, e3]
  simp

lemma bstage1_stable (s t : BMonthState) (r : ℚ) (d : Date)
    (h1 : t.firstDipTriggered = (bstage1 s r d).1.firstDipTriggered)
    (h2 : t.monthlyDeadlineTriggered = (bstage1 s r d).1.monthlyDeadlineTriggered) :
    bstage1 t r d = (t, []) := by
  unfold bstage1 at *
  split_ifs at h1 h2 ⊢ <;> simp_all

lemma bstage2_stable (s t : BMonthState) (c : ℚ)
    (h : t.secondDipTriggered = (bstage2 s c).1.secondDipTriggered) :
    bstage2 t c = (t, []) := by
  unfold bstage2 at *
  split_ifs at h ⊢ <;> simp_all

lemma bstage3_stable (s t : BMonthState) (br : ℚ)
    (h1 : t.secondDipTriggered = s.secondDipTriggered)
    (h2 : t.thirdDipTriggered = (bstage3 s br).1.thirdDipTriggered) :
    bstage3 t br = (t, []) := by
  unfold bstage3 at *
  split_ifs at h2 ⊢ <;> simp_all

lemma analyzeMonthStep_stable (s t : BMonthState) (b : Bar) (br : ℚ)
    (hf : t.firstDipTriggered = (analyzeMonthStep s b br).1.firstDipTriggered)
    (hd : t.monthlyDeadlineTriggered = (analyzeMonthStep s b br).1.monthlyDeadlineTriggered)
    (hs2 : t.secondDipTriggered = (analyzeMonthStep s b br).1.secondDipTriggered)
    (ht : t.thirdDipTriggered = (analyzeMonthStep s b br).1.thirdDipTriggered)
    (hm : t.monthStartPrice = s.monthStartPrice) :
    (analyzeMonthStep t b br).2 = [] := by
  have e1 : bstage1 { t with
        maxDecline := max t.maxDecline ((t.monthStartPrice - b.close) / t.monthStartPrice) }
      (b.dailyReturn.getD 0) b.date =
      ({ t with
        maxDecline := max t.maxDecline ((t.monthStartPrice - b.close) / t.monthStartPrice) },
       []) := by
    apply bstage1_stable { s with
        maxDecline := max s.maxDecline ((s.monthStartPrice - b.close) / s.monthStartPrice) }
    · simpa [analyzeMonthStep] using hf
    · simpa [analyzeMonthStep] using hd
  have e2 : bstage2 { t with
        maxDecline := max t.maxDecline ((t.monthStartPrice - b.close) / t.monthStartPrice) }
      ((t.monthStartPrice - b.close) / t.monthStartPrice) =
      ({ t with
        maxDecline := max t.maxDecline ((t.monthStartPrice - b.close) / t.monthStartPrice) },
       []) := by
    rw [hm]
    apply bstage2_stable
      (bstage1 { s with
          maxDecline := max s.maxDecline ((s.monthStartPrice - b.close) / s.monthStartPrice) }
        (b.dailyReturn.getD 0) b.date).1
    simpa [analyzeMonthStep] using hs2
  have e3 : bstage3 { t with
        maxDecline := max t.maxDecline ((t.monthStartPrice - b.close) / t.monthStartPrice) }
      br =
      ({ t with
        maxDecline := max t.maxDecline ((t.monthStartPrice - b.close) / t.monthStartPrice) },
       []) := by
    apply bstage3_stable
      (bstage2 (bstage1 { s with
          maxDecline := max s.maxDecline ((s.monthStartPrice - b.close) / s.monthStartPrice) }
        (b.dailyReturn.getD 0) b.date).1
        ((s.monthStartPrice - b.close) / s.monthStartPrice)).1
    · simpa [analyzeMonthStep] using hs2
    · simpa [analyzeMonthStep] using ht
  simp only [analyzeMonthStep, e1, e2, e3]
  simp

/-- C5: evaluating a day twice on the same state is idempotent: running the
per-day evaluation again on the state it just produced, with the same bar
(same date, prices and daily return) and the same breadth-lookup value,
emits no further trigger events, in the live monitor and in the backtest:
every stage checks its flag before firing and the flags are monotone within
the month. -/
theorem evaluate_idempotent :
    (∀ (s : MonitorState) (b : Bar) (br : ℚ),
      (checkTriggersCore (checkTriggersCore s b br).1 b br).2 = []) ∧
    (∀ (st : BMonthState) (b : Bar) (br : ℚ),
      (analyzeMonthStep (analyzeMonthStep st b br).1 b br).2 = []) := by
  constructor
  · intro s b br
    exact checkTriggersCore_stable s _ b br rfl rfl rfl rfl (by simp [checkTriggersCore])
  · intro st b br
    exact analyzeMonthStep_stable st _ b br rfl rfl rfl rfl (by simp [analyzeMonthStep])

/-! ## Month start price semantics (C6) -/

@[simp] lemma checkTriggersCore_msp (s : MonitorState) (b : Bar) (br : ℚ) :
    (checkTriggersCore s b br).1.monthStartPrice = s.monthStartPrice := by
  simp [checkTriggersCore]

@[simp] lemma analyzeMonthStep_msp (st : BMonthState) (b : Bar) (br : ℚ) :
    (analyzeMonthStep st b br).1.monthStartPrice = st.monthStartPrice := by
  simp [analyzeMonthStep]

lemma bFold_msp (t : List (Bar × ℚ)) (st : BMonthState) :
    (t.foldl (fun st d => (analyzeMonthStep st d.1 d.2).1) st).monthStartPrice
      = st.monthStartPrice := by
  induction t generalizing st with
  | nil => rfl
  | cons d t ih => rw [List.foldl_cons, ih, analyzeMonthStep_msp]

/-- A monitor state already tracking 2025-08 whose month_start_price is
unset (as happens when the rollover run found no bar of the new month in its
window, or the state file carried no price). -/
def inMonthNoStartState : MonitorState :=
  { currentMonth := some (2025, 8)
    firstDipTriggered := false
    monthlyDeadlineTriggered := false
    secondDipTriggered := false
    thirdDipTriggered := false
    monthStartPrice := none
    monthLowPrice := none
    lastCheckDate := none }

/-- C6 counterexample: the claim that every evaluation with an unset
monthStartPrice sets it to the open of the bar being evaluated fails on the
live monitor: with the stored month equal to the current month (so no
rollover) and month_start_price unset, evaluating the 2025-08-05 bar of
open 100 leaves month_start_price unset, rather than setting it to 100. -/
theorem month_start_price_counterexample :
    inMonthNoStartState.monthStartPrice = none ∧
    (checkTriggers inMonthNoStartState [quietBar] ⟨2025, 8, 5⟩ 20).1.monthStartPrice
      ≠ some quietBar.openPrice := by
  constructor
  · rfl
  · intro hcontra
    rw [show (checkTriggers inMonthNoStartState [quietBar] ⟨2025, 8, 5⟩ 20).1.monthStartPrice
        = none by
      norm_num [checkTriggers, checkTriggersCore, stage1, stage2, stage3, cumulative_decline,
        newMonthLow, inMonthNoStartState, quietBar, quietBar_not_third_friday,
        List.filter]] at hcontra
    exact Option.noConfusion hcontra

/-- C6 amended: month_start_price is not written by the per-bar evaluation.
In the backtest, analyze_month sets it once, before the daily loop, to the
open of the first bar of the month (hence equal to the open of the bar being
evaluated exactly on the first evaluation).  In the live monitor it is
written only on month rollover, and then to the open of the first fetched
bar of the new month (not of the bar being evaluated); on a run whose stored
month already equals the current month the evaluation never sets it, even
when it is unset. -/
theorem month_start_price_amended :
    (∀ (days : List (Bar × ℚ)) (r : BMonthState) (b0 : Bar) (br0 : ℚ),
        analyzeMonth days = some r → days.head? = some (b0, br0) →
        r.monthStartPrice = b0.openPrice) ∧
    (∀ (s : MonitorState) (df : List Bar) (today : Date) (br : ℚ) (b0 : Bar),
        s.currentMonth ≠ some (today.year, today.month) →
        (df.filter (fun b =>
            decide (b.date.year = today.year ∧ b.date.month = today.month))).head?
          = some b0 →
        (checkTriggers s df today br).1.monthStartPrice = some b0.openPrice) ∧
    (∀ (s : MonitorState) (df : List Bar) (today : Date) (br : ℚ),
        s.currentMonth = some (today.year, today.month) →
        (checkTriggers s df today br).1.monthStartPrice = s.monthStartPrice) := by
  refine ⟨?_, ?_, ?_⟩
  · intro days r b0 br0 h hhead
    match days, h, hhead with
    | (c0, cbr) :: t, h, hhead =>
      simp only [List.head?_cons, Option.some.injEq, Prod.mk.injEq] at hhead
      simp only [analyzeMonth, Option.some.injEq] at h
      subst h
      rw [List.foldl_cons, bFold_msp, analyzeMonthStep_msp]
      rw [hhead.1]
  · intro s df today br b0 hne hb
    have hdf : df.isEmpty = false := by
      cases df
      · simp at hb
      · rfl
    simp only [checkTriggers, hdf, Bool.false_eq_true, if_false, hb]
    rw [if_pos hne]
    split
    · rfl
    · simp
  · intro s df today br h
    simp only [checkTriggers]
    split
    · rfl
    · rw [if_neg (by simp [h])]
      split
      · rfl
      · simp

theorem month_start_price_amended_witness :
    quietMonthResult.monthStartPrice = quietBar.openPrice ∧
    (checkTriggers defaultState [quietBar] ⟨2025, 8, 5⟩ 20).1.monthStartPrice
      = some quietBar.openPrice ∧
    (checkTriggers inMonthNoStartState [quietBar] ⟨2025, 8, 5⟩ 20).1.monthStartPrice
      = inMonthNoStartState.monthStartPrice :=
  ⟨month_start_price_amended.1 quietDays quietMonthResult quietBar 20
      analyzeMonth_quietDays rfl,
   month_start_price_amended.2.1 defaultState [quietBar] ⟨2025, 8, 5⟩ 20 quietBar
      (by decide) (by decide),
   month_start_price_amended.2.2 inMonthNoStartState [quietBar] ⟨2025, 8, 5⟩ 20 rfl⟩

/-! ## Aborting when today has no bar (C7) -/

/-- A monitor state still tracking 2025-07 with the first dip already
triggered there. -/
def staleMonthState : MonitorState :=
  { currentMonth := some (2025, 7)
    firstDipTriggered := true
    monthlyDeadlineTriggered := false
    secondDipTriggered := false
    thirdDipTriggered := false
    monthStartPrice := some 100
    monthLowPrice := some 95
    lastCheckDate := some ⟨2025, 7, 31⟩ }

/-- The last July bar: the fetched window on 2025-08-05 before any August
data has appeared. -/
def julBar : Bar :=
  { date := ⟨2025, 7, 31⟩, openPrice := 99, close := 100, dailyReturn := some 0 }

/-- C7 counterexample: on a run where the today bar is absent from the
window, the claim that the state is left untouched fails when the month
rolled over: on 2025-08-05 with a window holding only July data, the run
dispatches no events and does not reach save_state, but the in-memory
rollover reset has already cleared first_dip_triggered from true to false,
so the state did change before the abort. -/
theorem no_data_abort_counterexample :
    (([julBar].filter (fun b => decide (b.date = (⟨2025, 8, 5⟩ : Date)))).getLast?
        = none) ∧
    (checkTriggers staleMonthState [julBar] ⟨2025, 8, 5⟩ 20).2.1 = [] ∧
    (checkTriggers staleMonthState [julBar] ⟨2025, 8, 5⟩ 20).2.2 = false ∧
    staleMonthState.firstDipTriggered = true ∧
    (checkTriggers staleMonthState [julBar] ⟨2025, 8, 5⟩ 20).1.firstDipTriggered = false ∧
    (checkTriggers staleMonthState [julBar] ⟨2025, 8, 5⟩ 20).1 ≠ staleMonthState := by
  decide

/-- C7 amended: when the today bar is absent from the fetched window, the
run emits no events and never reaches save_state; the in-memory state is
fully untouched whenever the stored month already equals the current month,
but when the month differs the rollover reset (flag clearing and month
start price reseeding) still runs before the today-bar check. -/
theorem no_data_aborts_amended :
    ∀ (s : MonitorState) (df : List Bar) (today : Date) (br : ℚ),
      (df.filter (fun b => decide (b.date = today))).getLast? = none →
      (checkTriggers s df today br).2.1 = [] ∧
      (checkTriggers s df today br).2.2 = false ∧
      (s.currentMonth = some (today.year, today.month) →
        (checkTriggers s df today br).1 = s) := by
  intro s df today br h
  refine ⟨?_, ?_, ?_⟩
  · simp only [checkTriggers, h]
    split
    · rfl
    · rfl
  · simp only [checkTriggers, h]
    split
    · rfl
    · rfl
  · intro h2
    simp only [checkTriggers, h]
    split
    · rfl
    · rw [if_neg (by simp [h2])]

theorem no_data_aborts_amended_witness :
    (checkTriggers inMonthNoStartState [] ⟨2025, 8, 5⟩ 20).2.1 = [] ∧
    (checkTriggers inMonthNoStartState [] ⟨2025, 8, 5⟩ 20).2.2 = false ∧
    (checkTriggers inMonthNoStartState [] ⟨2025, 8, 5⟩ 20).1 = inMonthNoStartState :=
  ⟨(no_data_aborts_amended inMonthNoStartState [] ⟨2025, 8, 5⟩ 20 rfl).1,
   (no_data_aborts_amended inMonthNoStartState [] ⟨2025, 8, 5⟩ 20 rfl).2.1,
   (no_data_aborts_amended inMonthNoStartState [] ⟨2025, 8, 5⟩ 20 rfl).2.2 rfl⟩

/-! ## The third Friday predicate (C8) -/

/-- C8: the live and backtest third-Friday predicates are the same function,
and for every date they return true exactly as the spec describes
isThirdDesignatedWeekday at weekday 4 (Friday): true iff the date is the
third Friday of its month, or the last Friday of a month with fewer than
three; moreover the Friday enumeration is in strictly ascending date order
over the whole month. -/
theorem third_friday_matches_spec :
    (∀ d : Date, RSPMonitor.is_third_friday d = RSPBacktestMonitor.is_third_friday d) ∧
    (∀ d : Date, RSPMonitor.is_third_friday d = isThirdDesignatedWeekday d 4) ∧
    (∀ y m : ℕ, ((fridaysOfMonth y m).map Date.day).Pairwise (· < ·)) := by
  refine ⟨fun d => rfl, ?_, ?_⟩
  · intro d
    unfold RSPMonitor.is_third_friday isThirdDesignatedWeekday fridaysOfMonth
    set fr := ((List.range' 1 (daysInMonth d.year d.month)).map
        (fun dd => Date.mk d.year d.month dd)).filter
        (fun x => decide (weekday x = 4)) with hfr
    by_cases h3 : 3 ≤ fr.length
    · rw [if_pos h3]
      have hnlt : ¬ fr.length < 3 := by omega
      simp [hnlt]
    · rw [if_neg h3]
      have h2 : fr.get? 2 = none := List.get?_len_le (by omega)
      simp only [List.get?_eq_getElem?] at h2
      have hlt : fr.length < 3 := by omega
      cases hl : fr.getLast? with
      | none => simp [h2, hl, hlt]
      | some f =>
        by_cases hfd : f = d <;> simp [h2, hl, hlt, hfd]
  · intro y m
    unfold fridaysOfMonth
    rw [List.pairwise_map]
    refine List.Pairwise.filter _ ?_
    rw [List.pairwise_map]
    simpa using List.pairwise_lt_range' 1 (daysInMonth y m)

/-! ## Simulated market breadth (C9) -/

/-- C9: the backtest simulated market breadth always lies in [5, 50]
whatever the date, the volatility and the seeded uniform draw (the clamp
guarantees the range), the error branch default 25 also lies in [5, 50],
and the result is a deterministic function of the date and the volatility:
equal inputs give equal values (the uniform draw is a pure function of the
seed, which is derived from the date alone). -/
theorem simulate_breadth_range_deterministic :
    (∀ (f : ℕ → ℚ) (d : Date) (v : ℚ),
        5 ≤ simulate_market_breadth f d v ∧ simulate_market_breadth f d v ≤ 50) ∧
    ((5:ℚ) ≤ simulateBreadthErrorDefault ∧ simulateBreadthErrorDefault ≤ 50) ∧
    (∀ (f : ℕ → ℚ) (d₁ d₂ : Date) (v₁ v₂ : ℚ), d₁ = d₂ → v₁ = v₂ →
        simulate_market_breadth f d₁ v₁ = simulate_market_breadth f d₂ v₂) := by
  refine ⟨?_, ⟨by norm_num [simulateBreadthErrorDefault],
      by norm_num [simulateBreadthErrorDefault]⟩, ?_⟩
  · intro f d v
    unfold simulate_market_breadth
    exact ⟨le_max_left _ _, max_le (by norm_num) (min_le_left _ _)⟩
  · intro f d₁ d₂ v₁ v₂ h1 h2
    rw [h1, h2]

theorem simulate_breadth_range_deterministic_witness :
    (5:ℚ) ≤ simulate_market_breadth (fun _ => 0) ⟨2025, 8, 5⟩ (1/100) ∧
    simulate_market_breadth (fun _ => 0) ⟨2025, 8, 5⟩ (1/100)
      = simulate_market_breadth (fun _ => 0) ⟨2025, 8, 5⟩ (1/100) :=
  ⟨(simulate_breadth_range_deterministic.1 (fun _ => 0) ⟨2025, 8, 5⟩ (1/100)).1,
   simulate_breadth_range_deterministic.2.2 (fun _ => 0) ⟨2025, 8, 5⟩ ⟨2025, 8, 5⟩
      (1/100) (1/100) rfl rfl⟩

/-! ## NaN daily return is treated as zero (C10) -/

lemma stage1_zero_no_firstDip (s : MonitorState) (d : Date) :
    TriggerType.firstDip ∉ (stage1 s 0 d).2 := by
  unfold stage1
  split_ifs with h1 h2
  · exact absurd h1.2.2 (by norm_num)
  · simp
  · simp

lemma stage2_no_firstDip (s : MonitorState) (c : ℚ) :
    TriggerType.firstDip ∉ (stage2 s c).2 := by
  unfold stage2; split_ifs <;> simp

lemma stage3_no_firstDip (s : MonitorState) (br : ℚ) :
    TriggerType.firstDip ∉ (stage3 s br).2 := by
  unfold stage3; split_ifs <;> simp

lemma stage1_zero_first (s : MonitorState) (d : Date) :
    (stage1 s 0 d).1.firstDipTriggered = s.firstDipTriggered := by
  unfold stage1
  split_ifs with h1 h2
  · exact absurd h1.2.2 (by norm_num)
  · rfl
  · rfl

lemma stage1_zero_deadline (s : MonitorState) (d : Date) :
    (stage1 s 0 d).1.monthlyDeadlineTriggered =
      (s.monthlyDeadlineTriggered ||
        (!s.firstDipTriggered && !s.monthlyDeadlineTriggered &&
          RSPMonitor.is_third_friday d)) := by
  unfold stage1
  split_ifs with h1 h2
  · exact absurd h1.2.2 (by norm_num)
  · simp_all
  · cases hf : s.firstDipTriggered <;> cases hd : s.monthlyDeadlineTriggered <;>
      cases hfr : RSPMonitor.is_third_friday d <;> simp_all

lemma bstage1_zero_no_firstDip (st : BMonthState) (d : Date) :
    TriggerType.firstDip ∉ (bstage1 st 0 d).2 := by
  unfold bstage1
  split_ifs with h1 h2
  · exact absurd h1.2.2 (by norm_num)
  · simp
  · simp

lemma bstage2_no_firstDip (st : BMonthState) (c : ℚ) :
    TriggerType.firstDip ∉ (bstage2 st c).2 := by
  unfold bstage2; split_ifs <;> simp

lemma bstage3_no_firstDip (st : BMonthState) (br : ℚ) :
    TriggerType.firstDip ∉ (bstage3 st br).2 := by
  unfold bstage3; split_ifs <;> simp

lemma bstage1_zero_first (st : BMonthState) (d : Date) :
    (bstage1 st 0 d).1.firstDipTriggered = st.firstDipTriggered := by
  unfold bstage1
  split_ifs with h1 h2
  · exact absurd h1.2.2 (by norm_num)
  · rfl
  · rfl

lemma bstage1_zero_deadline (st : BMonthState) (d : Date) :
    (bstage1 st 0 d).1.monthlyDeadlineTriggered =
      (st.monthlyDeadlineTriggered ||
        (!st.firstDipTriggered && !st.monthlyDeadlineTriggered &&
          RSPBacktestMonitor.is_third_friday d)) := by
  unfold bstage1
  split_ifs with h1 h2
  · exact absurd h1.2.2 (by norm_num)
  · simp_all
  · cases hf : st.firstDipTriggered <;> cases hd : st.monthlyDeadlineTriggered <;>
      cases hfr : RSPBacktestMonitor.is_third_friday d <;> simp_all

/-- C10: on a bar whose daily return is missing (NaN, modelled as none, as
for the first bar of a fetched series), both evaluations substitute 0 for
it, so the first-dip condition (return of at most -1 percent) cannot hold:
no FirstDip event is emitted, the first-dip flag is unchanged, and stage 1
falls through to the third-Friday deadline check, whose flag becomes true
exactly when neither stage-1 flag was set and the date is the third
Friday. -/
theorem nan_return_no_first_dip :
    (∀ (s : MonitorState) (b : Bar) (br : ℚ), b.dailyReturn = none →
        TriggerType.firstDip ∉ (checkTriggersCore s b br).2 ∧
        (checkTriggersCore s b br).1.firstDipTriggered = s.firstDipTriggered ∧
        (checkTriggersCore s b br).1.monthlyDeadlineTriggered =
          (s.monthlyDeadlineTriggered ||
            (!s.firstDipTriggered && !s.monthlyDeadlineTriggered &&
              RSPMonitor.is_third_friday b.date))) ∧
    (∀ (st : BMonthState) (b : Bar) (br : ℚ), b.dailyReturn = none →
        TriggerType.firstDip ∉ (analyzeMonthStep st b br).2 ∧
        (analyzeMonthStep st b br).1.firstDipTriggered = st.firstDipTriggered ∧
        (analyzeMonthStep st b br).1.monthlyDeadlineTriggered =
          (st.monthlyDeadlineTriggered ||
            (!st.firstDipTriggered && !st.monthlyDeadlineTriggered &&
              RSPBacktestMonitor.is_third_friday b.date))) := by
  constructor
  · intro s b br hn
    refine ⟨?_, ?_, ?_⟩
    · simp [checkTriggersCore, hn, stage1_zero_no_firstDip, stage2_no_firstDip,
        stage3_no_firstDip]
    · simp [checkTriggersCore, hn, stage1_zero_first]
    · simp [checkTriggersCore, hn, stage1_zero_deadline]
  · intro st b br hn
    refine ⟨?_, ?_, ?_⟩
    · simp [analyzeMonthStep, hn, bstage1_zero_no_firstDip, bstage2_no_firstDip,
        bstage3_no_firstDip]
    · simp [analyzeMonthStep, hn, bstage1_zero_first]
    · simp [analyzeMonthStep, hn, bstage1_zero_deadline]

/-- A bar with a missing (NaN) daily return, as the first bar of a series. -/
def nanBar : Bar :=
  { date := ⟨2025, 8, 5⟩, openPrice := 100, close := 98, dailyReturn := none }

theorem nan_return_no_first_dip_witness :
    TriggerType.firstDip ∉ (checkTriggersCore defaultState nanBar 20).2 ∧
    TriggerType.firstDip ∉ (analyzeMonthStep quietMonthResult nanBar 20).2 :=
  ⟨((nan_return_no_first_dip.1 defaultState nanBar 20) rfl).1,
   ((nan_return_no_first_dip.2 quietMonthResult nanBar 20) rfl).1⟩
